import Mathlib

/-!
Verification development for `lineProfLTE.py`: a shallow embedding of the
LTE line-profile computation (transfer-equation context, local derivative,
sightline segment decomposition, beam integrand, brightness-temperature
conversion, input validation and velocity-grid selection), together with
theorems settling the spec claims against it.

Numerical library calls (`scipy.integrate.odeint`, `scipy.integrate.quad`,
`scipy.optimize.fmin`) are external collaborators; where a claim is about
the structure built around them, the solver is a parameter of the embedded
definition and the structure (segment lists, seeds, integrand shapes,
objectives) is embedded faithfully from the source.
-/

namespace LineProfLTE

/-! ### Global physical constants (source lines 30-42, cgs units) -/

/-- Boltzmann constant in erg/K: `physcons.k*1e7`. -/
noncomputable def kB : ℝ := 1.380649e-16

/-- Speed of light in cm/s: `physcons.c*1e2`. -/
noncomputable def c : ℝ := 2.99792458e10

/-- Proton mass in g: `physcons.m_p*1e3`. -/
noncomputable def mH : ℝ := 1.67262192369e-24

/-- Planck constant in erg s: `physcons.h*1e7`. -/
noncomputable def h : ℝ := 6.62607015e-27

/-- Small number to avoid divide by zeros (source line 42). -/
noncomputable def small : ℝ := 1e-50

/-! ### Normalization wrappers (source classes `_normFunc`, `_normFunc2`) -/

/-- Embeds class `_normFunc` (source lines 320-325): a function together
with a normalization constant. -/
structure NormFunc where
  func : ℝ → ℝ
  norm : ℝ

/-- Method `_normFunc.f`: `func(arg)/norm`. -/
noncomputable def NormFunc.f (nf : NormFunc) (arg : ℝ) : ℝ := nf.func arg / nf.norm

/-- Embeds class `_normFunc2` (source lines 327-332): evaluates the wrapped
function at the argument rescaled by the normalization constant. -/
structure NormFunc2 where
  func : ℝ → ℝ
  norm : ℝ

/-- Method `_normFunc2.f`: `func(arg*norm)`. -/
noncomputable def NormFunc2.f (nf : NormFunc2) (arg : ℝ) : ℝ := nf.func (arg * nf.norm)

/-- Dummy function that just returns 1.0 (source `_unity`, lines 335-336). -/
noncomputable def unity (_ : ℝ) : ℝ := 1

/-- A radial profile argument: either a float (uniform value) or a callable,
mirroring the `isinstance(..., float)` dispatch in `_transferEqn.__init__`
(source lines 408-431). -/
inductive Prof where
  | const : ℝ → Prof
  | func : (ℝ → ℝ) → Prof

/-- Edge value of a profile: the float itself, or the callable at r = 1
(`denProf(1.0)` etc., source lines 408-431). -/
noncomputable def Prof.edge : Prof → ℝ
  | .const c0 => c0
  | .func g => g 1

/-- Normalized form of a profile: `_normFunc(_unity, 1.0)` for a float,
`_normFunc(profile, profile(1.0))` for a callable (source lines 408-431). -/
noncomputable def Prof.nf : Prof → NormFunc
  | .const _ => ⟨unity, 1⟩
  | .func g => ⟨g, g 1⟩

/-! ### The transfer-equation context (source class `_transferEqn`) -/

/-- The immutable bundle `_transferEqn` stores (source lines 404-447). -/
structure TransferEqn where
  d : NormFunc
  T : NormFunc
  u : NormFunc
  sigma : NormFunc
  beta : ℝ
  betas : ℝ
  betaNT : ℝ
  freq : ℝ
  Theta : ℝ
  tau0 : ℝ
  I0 : ℝ
  prefac : ℝ
  Z : NormFunc2
  offset : ℝ
  sigmaTot : ℝ
  v0 : ℝ

/-- The RHS of the transfer equation, `_transferEqn.rhs` (source lines
343-359): line-shape Gaussian times the LTE source/absorption term. -/
noncomputable def TransferEqn.rhs (te : TransferEqn) (I x f : ℝ) : ℝ :=
  let r := Real.sqrt (x ^ 2 + te.offset ^ 2)
  let sigmaf := Real.sqrt (te.betas ^ 2 * te.T.f r + te.betaNT ^ 2 * (te.sigma.f r) ^ 2)
  let f0 := 1 - te.beta * te.u.f r * Real.sin (x / (r + small))
  let phif := 1 / Real.sqrt (2 * Real.pi * sigmaf ^ 2) *
    Real.exp (-(f - f0) ^ 2 / (2 * sigmaf ^ 2))
  te.d.f r * (te.prefac / te.Z.f (te.T.f r)) *
    (Real.exp (-te.Theta / te.T.f r) -
      te.tau0 * (1 - Real.exp (-te.Theta / te.T.f r)) * I) * phif

/-- The log-coordinate variant `_transferEqn.rhs_log` (source lines
361-362): the RHS at `x = sgn*exp(logx)`, scaled by the chain-rule factor
`exp(logx)^2 / sqrt(exp(logx)^2 + offset^2)` and by `sgn`. -/
noncomputable def TransferEqn.rhsLog (te : TransferEqn) (I logx f sgn : ℝ) : ℝ :=
  sgn * te.rhs I (sgn * Real.exp logx) f *
    ((Real.exp logx ^ 2) / Real.sqrt (Real.exp logx ^ 2 + te.offset ^ 2))

/-- Constructor `_transferEqn.__init__` (source lines 404-447): derives all
dimensionless parameters from the emitter data and the four profiles. -/
noncomputable def mkTransferEqn (einsteinA freq levWgtU levTempL molWgt : ℝ)
    (partFunc : ℝ → ℝ) (R : ℝ) (denProf TProf vProf sigmaProf : Prof)
    (offset : ℝ) : TransferEqn :=
  let d0 := denProf.edge
  let T0 := TProf.edge
  let v0 := vProf.edge
  let sigma0 := sigmaProf.edge
  let cs0 := Real.sqrt (kB * T0 / (molWgt * mH))
  let wavelength := c / freq
  { d := denProf.nf
    T := TProf.nf
    u := vProf.nf
    sigma := sigmaProf.nf
    beta := v0 / c
    betas := cs0 / c
    betaNT := sigma0 / c
    freq := freq
    Theta := h * c / (wavelength * kB * T0)
    tau0 := einsteinA * wavelength ^ 3 * d0 * R / (2 * c)
    I0 := einsteinA * d0 * h * R
    prefac := d0 * levWgtU * Real.exp (-levTempL / T0) / (4 * Real.pi)
    Z := ⟨partFunc, T0⟩
    offset := offset
    sigmaTot := Real.sqrt (cs0 ^ 2 + v0 ^ 2)
    v0 := v0 }

/-! ### Brightness-temperature conversion (source lines 190-196) -/

/-- Step 5 of `lineProfLTE`: convert an emergent intensity to brightness
temperature. The magnitude is `(h*freq/kB)/log(1 + 2*h*freq^3/(c^2*|I|*I0 +
small))`; the sign is flipped where the intensity is negative and the value
forced to exactly 0 where the intensity is exactly 0 (source lines 192-196). -/
noncomputable def lineTB (freq I0v iOut : ℝ) : ℝ :=
  let TB := (h * freq / kB) / Real.log (1 + 2 * h * freq ^ 3 / (c ^ 2 * |iOut| * I0v + small))
  let TBsigned := if iOut < 0 then -TB else TB
  if iOut = 0 then 0 else TBsigned

/-! ### CMB seed intensity (source lines 252-257) -/

/-- The normalized CMB intensity as the source computes it (lines 256-257):
`(2*h*freq^3/c^2) / (exp(h*f*freq/(kB*TCMB)) - 1) / I0`. The numerator uses
the rest-frame frequency only; the Doppler ratio f enters the exponent. -/
noncomputable def ICMBcode (freq I0v TCMB f : ℝ) : ℝ :=
  (2 * h * freq ^ 3 / c ^ 2) / (Real.exp (h * f * freq / (kB * TCMB)) - 1) / I0v

/-- The CMB intensity as the spec sentence words it, for comparison with
`ICMBcode`: `(2*h*f^3*freq^3/c^2) / (exp(h*f*freq/(kB*TCMB)) - 1) / I0`,
with the Doppler factor cubed in the numerator as well. -/
noncomputable def ICMBclaim (freq I0v TCMB f : ℝ) : ℝ :=
  (2 * h * f ^ 3 * freq ^ 3 / c ^ 2) / (Real.exp (h * f * freq / (kB * TCMB)) - 1) / I0v

/-! ### Sightline segment decomposition (source lines 259-311)

`LineProfLTE_pencil` picks its integration segments from the `fmin` result
`r_los`; each segment is handed to `scipy.integrate.odeint` with the RHS in
either linear or log coordinates, a sign for the log substitution, and a
maximum step count. The odeint call itself is an external solver; the
segment data and the chaining of intensities are embedded here. -/

/-- One odeint invocation of the pencil integration: raw sightline
endpoints, whether the log-coordinate RHS is used, the sign passed to the
log substitution, and the `mxstep` budget given to odeint. -/
structure Seg where
  lo : ℝ
  hi : ℝ
  useLog : Bool
  sgn : ℤ
  mx : ℕ

/-- The breakpoint array `xLim` of the interior-resonance branch (source
line 271). -/
noncomputable def xLimList (rl : ℝ) : List ℝ :=
  [-1, -1.1 * rl, -rl, -rl / 10, -rl / 100, rl / 100, rl / 10, rl, 1.1 * rl, 1]

/-- The `logscale` array (source line 272). -/
def logscaleList : List Bool :=
  [true, true, true, true, false, true, true, true, true, true]

/-- The `sgn` array (source line 273). It has 11 entries for 9 segments, so
segment i uses entry i; the entry for the segment `[rl/100, rl/10]` is 0. -/
def sgnList : List ℤ := [-1, -1, -1, -1, -1, 0, 1, 1, 1, 1, 1]

/-- The interior-resonance segments: the loop `for i in range(len(xLim)-1)`
(source lines 277-292) pairs consecutive breakpoints with the logscale flag
and sign of index i; both odeint calls in this branch pass a hard-coded
`mxstep=10000` (lines 283-284 and 291-292). -/
noncomputable def interiorSegs (rl : ℝ) : List Seg :=
  (List.range 9).map fun i =>
    ⟨(xLimList rl).getD i 0, (xLimList rl).getD (i + 1) 0,
      logscaleList.getD i false, sgnList.getD i 0, 10000⟩

/-- The exterior-resonance segment (source lines 294-302): a single linear
odeint solve over `[-sqrt(1-offset^2), sqrt(1-offset^2)]` with the
caller-supplied `mxstep`. -/
noncomputable def extSeg (offset : ℝ) (m : ℕ) : Seg :=
  ⟨-Real.sqrt (1 - offset ^ 2), Real.sqrt (1 - offset ^ 2), false, 1, m⟩

/-- The branch on the `fmin` result (source line 270): the code compares
`r_los < 1` signed, not `|r_los| < 1`. -/
noncomputable def pencilSegments (rl offset : ℝ) (m : ℕ) : List Seg :=
  if rl < 1 then interiorSegs rl else [extSeg offset m]

/-- The branch as the spec sentence words it, for comparison with
`pencilSegments`: interior-resonance when `|x*| < 1`, exterior-resonance
when `|x*| >= 1`. -/
noncomputable def pencilSegmentsClaim (rl offset : ℝ) (m : ℕ) : List Seg :=
  if |rl| < 1 then interiorSegs rl else [extSeg offset m]

/-- The pencil integration around the external odeint solver (source lines
252-311): seed with the normalized CMB intensity, carry the intensity
through the segments in order, and subtract the same CMB value before
returning. `solve` stands for one odeint call on one segment. -/
noncomputable def pencilIntensity (solve : Seg → ℝ → ℝ)
    (rl v offset TCMB freq I0v : ℝ) (m : ℕ) : ℝ :=
  let f := 1 + v / c
  let icmb := ICMBcode freq I0v TCMB f
  let segs := pencilSegments rl offset m
  segs.foldl (fun I s => solve s I) icmb - icmb

/-- The default of the `mxstep` parameter in both `lineProfLTE` (line 51)
and `LineProfLTE_pencil` (line 209). -/
def defaultMxstep : ℕ := 10000

/-! ### Resonance search (source lines 259-265) -/

/-- The walk direction: `sign = -1 if v < 0 else 1` (source lines 260-263),
so v = 0 searches the +x side. -/
noncomputable def velocitySign (v : ℝ) : ℝ := if v < 0 then -1 else 1

/-- The `fmin` starting point, 0.001 (source line 265). -/
noncomputable def resonanceStart : ℝ := 0.001

/-- The `fmin` tolerance `xtol=10**-5` (source line 265). -/
noncomputable def resonanceXtol : ℝ := 1e-5

/-- The objective handed to `fmin` (source line 265):
`lambda x: -te.rhs(ICMB, sign*x, f)` — the negated transfer-equation RHS at
the fixed CMB seed intensity, not at the evolving intensity. -/
noncomputable def resonanceObjective (te : TransferEqn) (TCMB v x : ℝ) : ℝ :=
  -(te.rhs (ICMBcode te.freq te.I0 TCMB (1 + v / c)) (velocitySign v * x) (1 + v / c))

/-! ### Gaussian beam integrand (source lines 176-183) -/

/-- The integrand handed to `scipy.integrate.quad` when `beamdisp > 0`
(source lines 179-183): `r * exp(-r^2/(2*beamdisp^2)) *
LineProfLTE_pencil(v, te, offset=offset, ...)`. The inner pencil call
receives the caller's `offset` (forced to 0 whenever this branch runs by
the line-133 check), not the quadrature variable r. `pencil` stands for
`LineProfLTE_pencil` as a function of (v, offset). -/
noncomputable def beamIntegrand (pencil : ℝ → ℝ → ℝ) (beamdisp offset v r : ℝ) : ℝ :=
  r * Real.exp (-r ^ 2 / (2 * beamdisp ^ 2)) * pencil v offset

/-- The beam integrand as the spec sentence words it, for comparison with
`beamIntegrand`: the pencil result evaluated at impact parameter r. -/
noncomputable def beamIntegrandClaim (pencil : ℝ → ℝ → ℝ) (beamdisp v r : ℝ) : ℝ :=
  r * Real.exp (-r ^ 2 / (2 * beamdisp ^ 2)) * pencil v r

/-! ### Input validation (source lines 126-135) -/

/-- The distinguishable outcomes of the three validation checks at the top
of `lineProfLTE`. `nameError` models the Python NameError raised when line
128 evaluates the undefined name `depoticError` (the module imports
`despoticError`; the name in the raise statement is misspelled), which is
what an `EinsteinA = 0` call actually surfaces. `noTransitionError` is
modelled from the spec: the despotic error kind the spec says that call
must raise; no line of the source constructs it. -/
inductive LPErr where
  | nameError
  | noTransitionError
  | offsetError
  | beamOffsetError
deriving DecidableEq

/-- The validation sequence of `lineProfLTE` Step 1 (source lines 126-135),
in source order: the EinsteinA check (which trips the misspelled-name
NameError), then the offset range check, then the beam/offset combination
check. Rationals stand for the float inputs; only order comparisons are
performed on them. -/
def lpValidate (einsteinA offset beamdisp : ℚ) : Option LPErr :=
  if einsteinA = 0 then some .nameError
  else if offset < 0 ∨ offset > 1 then some .offsetError
  else if beamdisp > 0 ∧ offset > 0 then some .beamOffsetError
  else none

/-! ### Velocity-grid selection (source lines 143-156) -/

/-- The four sources a velocity grid can be built from (spec section 4.6). -/
inductive GridSrc where
  | explicitSeq
  | fromDv
  | fromVLim
  | auto
deriving DecidableEq

/-- The grid-source selection of `lineProfLTE` Step 3 (source lines
143-156): the outer test is `vOut == None`, the next `dv == None`, the
innermost `vLim == None`; so an explicit sequence wins, then dv, then vLim,
then the auto-derived limits. -/
def gridSource (haveVOut haveDv haveVLim : Bool) : GridSrc :=
  if haveVOut then .explicitSeq
  else if haveDv then .fromDv
  else if haveVLim then .fromVLim
  else .auto

/-- The selection as the spec sentence words it, for comparison with
`gridSource`: explicit sequence, then (vLim, count), then (dv, count),
then auto. -/
def gridSourceClaim (haveVOut haveDv haveVLim : Bool) : GridSrc :=
  if haveVOut then .explicitSeq
  else if haveVLim then .fromVLim
  else if haveDv then .fromDv
  else .auto

/-- The auto-derived velocity limits (source lines 148-149):
`[-5*sigmaTot - abs(v0), 5*sigmaTot + abs(v0)]`. -/
noncomputable def autoVLim (sigmaTot v0 : ℝ) : ℝ × ℝ :=
  (-5 * sigmaTot - |v0|, 5 * sigmaTot + |v0|)

end LineProfLTE

namespace LineProfLTE

/-- C1: for every intensity I, sightline coordinate x and target frequency
ratio f, the transfer-equation RHS of a constructed context returns
dnorm(r) * (prefactor / Z(Tnorm(r)*T0)) *
[exp(-Theta/Tnorm(r)) - tau0*(1-exp(-Theta/Tnorm(r)))*I] * phi(f), with
r = sqrt(x^2+offset^2), phi the unit-normalized Gaussian of width
sigmaf = sqrt(betas^2*Tnorm(r) + betaNT^2*sigmanorm(r)^2) centered at
f0 = 1 - beta*unorm(r)*sin(x/(r+eps)), and the partition function evaluated
at the physical temperature Tnorm(r)*T0. -/
theorem c1_rhs_formula
    (einsteinA freq levWgtU levTempL molWgt : ℝ) (partFunc : ℝ → ℝ) (R : ℝ)
    (denProf TProf vProf sigmaProf : Prof) (offset I x f : ℝ) :
    (mkTransferEqn einsteinA freq levWgtU levTempL molWgt partFunc R
        denProf TProf vProf sigmaProf offset).rhs I x f =
      (let r := Real.sqrt (x ^ 2 + offset ^ 2)
       let T0 := TProf.edge
       let Tn := TProf.nf.f r
       let sigmaf := Real.sqrt ((Real.sqrt (kB * T0 / (molWgt * mH)) / c) ^ 2 * Tn +
         (sigmaProf.edge / c) ^ 2 * (sigmaProf.nf.f r) ^ 2)
       let f0 := 1 - (vProf.edge / c) * vProf.nf.f r * Real.sin (x / (r + small))
       let Theta := h * c / ((c / freq) * kB * T0)
       denProf.nf.f r *
         ((denProf.edge * levWgtU * Real.exp (-levTempL / T0) / (4 * Real.pi)) /
           partFunc (Tn * T0)) *
         (Real.exp (-Theta / Tn) -
           (einsteinA * (c / freq) ^ 3 * denProf.edge * R / (2 * c)) *
             (1 - Real.exp (-Theta / Tn)) * I) *
         (1 / Real.sqrt (2 * Real.pi * sigmaf ^ 2) *
           Real.exp (-(f - f0) ^ 2 / (2 * sigmaf ^ 2)))) := rfl

/-- C2: for every computed velocity, the emergent intensity is converted to
brightness temperature TB = (h*freq/kB)/log(1 + 2*h*freq^3/(c^2*|I|*I0 +
small)); the sign is flipped when I < 0 (maser) and TB is exactly 0 when
I = 0; in this total real-valued model the conversion is everywhere
defined. -/
theorem c2_brightness_temperature (freq I0v I : ℝ) :
    lineTB freq I0v I =
      if I = 0 then 0
      else (if I < 0 then -1 else 1) *
        ((h * freq / kB) / Real.log (1 + 2 * h * freq ^ 3 / (c ^ 2 * |I| * I0v + small))) := by
  by_cases h0 : I = 0 <;> by_cases hn : I < 0 <;> simp [lineTB, h0, hn]

/-- C3 counterexample: at freq = 1, I0 = 1, TCMB = 1 and Doppler ratio
f = 2, the CMB seed the claim states (with the f^3 factor in the numerator)
differs from the seed the code computes (rest-frame numerator only). -/
theorem c3_cmb_formula_counterexample : ICMBclaim 1 1 1 2 ≠ ICMBcode 1 1 1 2 := by
  intro heq
  have hh : (0:ℝ) < h := by norm_num [h]
  have hc : (0:ℝ) < c := by norm_num [c]
  have hkB : (0:ℝ) < kB := by norm_num [kB]
  have hx : (0:ℝ) < h * 2 * 1 / (kB * 1) := by positivity
  have hE1 : 1 < Real.exp (h * 2 * 1 / (kB * 1)) :=
    calc (1:ℝ) = Real.exp 0 := Real.exp_zero.symm
    _ < Real.exp (h * 2 * 1 / (kB * 1)) := Real.exp_lt_exp.mpr hx
  have hid : ICMBclaim 1 1 1 2 = 8 * ICMBcode 1 1 1 2 := by
    unfold ICMBclaim ICMBcode; ring
  have hnum : (0:ℝ) < 2 * h * 1 ^ 3 / c ^ 2 := div_pos (by nlinarith) (pow_pos hc 2)
  have hden : (0:ℝ) < Real.exp (h * 2 * 1 / (kB * 1)) - 1 := by linarith
  have hpos : 0 < ICMBcode 1 1 1 2 := by
    unfold ICMBcode
    simpa using div_pos hnum hden
  rw [hid] at heq
  linarith

/-- C3 (amended): for every velocity v with f = 1 + v/c, the sightline
integration in both branches is seeded with the normalized CMB intensity
ICMB = (2*h*freq^3/c^2)/(exp(h*f*freq/(kB*TCMB))-1)/I0 — rest-frame
numerator, Doppler-shifted exponent — and this same ICMB is subtracted from
the integrated intensity before the pencil result is returned. -/
theorem c3_cmb_seed_subtracted (solve : Seg → ℝ → ℝ)
    (rl v offset TCMB freq I0v : ℝ) (m : ℕ) :
    pencilIntensity solve rl v offset TCMB freq I0v m =
      (if rl < 1 then
        (interiorSegs rl).foldl (fun I s => solve s I) (ICMBcode freq I0v TCMB (1 + v / c))
       else solve (extSeg offset m) (ICMBcode freq I0v TCMB (1 + v / c))) -
        ICMBcode freq I0v TCMB (1 + v / c) := by
  unfold pencilIntensity pencilSegments
  split <;> rfl

/-- C4 counterexample: at resonance coordinate -2 the claim (branching on
`|x*| < 1`) prescribes the single exterior-resonance segment, but the code
(branching on the signed `r_los < 1`) takes the nine-segment interior
decomposition. -/
theorem c4_branch_condition_counterexample :
    pencilSegments (-2 : ℝ) 0 10000 ≠ pencilSegmentsClaim (-2 : ℝ) 0 10000 := by
  intro heq
  have hlen := congrArg List.length heq
  rw [pencilSegments, pencilSegmentsClaim] at hlen
  rw [if_pos (by norm_num : (-2:ℝ) < 1), if_neg (by norm_num : ¬ |(-2:ℝ)| < 1)] at hlen
  simp [interiorSegs] at hlen

/-- C4 (amended): when the resonance coordinate satisfies the signed
comparison x* < 1, the pencil integration decomposes the domain at the ten
breakpoints -1, -1.1x*, -x*, -x*/10, -x*/100, x*/100, x*/10, x*, 1.1x*, 1,
flagging every segment for log coordinates except the single linear segment
[-x*/100, x*/100], carrying the intensity forward breakpoint-to-breakpoint
as one chained solve; when x* >= 1 it integrates linearly over the single
interval [-sqrt(1-offset^2), sqrt(1-offset^2)]. -/
theorem c4_segment_decomposition (rl offset : ℝ) (m : ℕ)
    (solve : Seg → ℝ → ℝ) (icmb : ℝ) :
    (pencilSegments rl offset m =
      if rl < 1 then
        [⟨-1, -1.1 * rl, true, -1, 10000⟩, ⟨-1.1 * rl, -rl, true, -1, 10000⟩,
         ⟨-rl, -rl / 10, true, -1, 10000⟩, ⟨-rl / 10, -rl / 100, true, -1, 10000⟩,
         ⟨-rl / 100, rl / 100, false, -1, 10000⟩, ⟨rl / 100, rl / 10, true, 0, 10000⟩,
         ⟨rl / 10, rl, true, 1, 10000⟩, ⟨rl, 1.1 * rl, true, 1, 10000⟩,
         ⟨1.1 * rl, 1, true, 1, 10000⟩]
      else [⟨-Real.sqrt (1 - offset ^ 2), Real.sqrt (1 - offset ^ 2), false, 1, m⟩]) ∧
    ((pencilSegments rl offset m).foldl (fun I s => solve s I) icmb =
      if rl < 1 then
        solve ⟨1.1 * rl, 1, true, 1, 10000⟩ (solve ⟨rl, 1.1 * rl, true, 1, 10000⟩
          (solve ⟨rl / 10, rl, true, 1, 10000⟩ (solve ⟨rl / 100, rl / 10, true, 0, 10000⟩
            (solve ⟨-rl / 100, rl / 100, false, -1, 10000⟩
              (solve ⟨-rl / 10, -rl / 100, true, -1, 10000⟩
                (solve ⟨-rl, -rl / 10, true, -1, 10000⟩
                  (solve ⟨-1.1 * rl, -rl, true, -1, 10000⟩
                    (solve ⟨-1, -1.1 * rl, true, -1, 10000⟩ icmb))))))))
      else solve ⟨-Real.sqrt (1 - offset ^ 2), Real.sqrt (1 - offset ^ 2), false, 1, m⟩ icmb) := by
  constructor
  · unfold pencilSegments
    split <;> rfl
  · unfold pencilSegments
    split <;> rfl

/-- C5: the Gaussian-beam integrand evaluates the pencil result at the
caller's fixed offset (0 on this branch), never at the quadrature variable
r, so the claimed integrand — pencil intensity at impact parameter r — and
the code's integrand disagree at the concrete stand-in pencil
(fun v offset => offset), beamdisp = 1, v = 0, r = 1. -/
theorem c5_beam_offset_fixed :
    (∀ (pencil : ℝ → ℝ → ℝ) (bd v r : ℝ),
      beamIntegrand pencil bd 0 v r = r * Real.exp (-r ^ 2 / (2 * bd ^ 2)) * pencil v 0) ∧
    beamIntegrand (fun _ y => y) 1 0 0 1 ≠ beamIntegrandClaim (fun _ y => y) 1 0 1 := by
  constructor
  · intro pencil bd v r; rfl
  · have h0 : beamIntegrand (fun _ y => y) 1 0 0 1 = 0 := by simp [beamIntegrand]
    have h1 : beamIntegrandClaim (fun _ y => y) 1 0 1 = Real.exp (-(1 / 2)) := by
      simp [beamIntegrandClaim]; norm_num
    rw [h0, h1]
    exact Ne.symm (Real.exp_pos _).ne'

/-- C6: when EinsteinA = 0 the validation trips first, before the offset
and beam checks, for every offset and beam dispersion — but what it raises
is the NameError from the misspelled `depoticError`, not the despotic
NoTransitionError kind the claim names. -/
theorem c6_einstein_zero_name_error (offset beamdisp : ℚ) :
    lpValidate 0 offset beamdisp = some LPErr.nameError ∧
    lpValidate 0 offset beamdisp ≠ some LPErr.noTransitionError := by
  refine ⟨by simp [lpValidate], by simp [lpValidate]⟩

/-- C7 counterexample: with no explicit sequence but both dv and vLim
given, the code builds the grid from dv while the claim's precedence
prescribes vLim. -/
theorem c7_grid_precedence_counterexample :
    gridSource false true true ≠ gridSourceClaim false true true := by decide

/-- C7 (amended): the velocity grid is built from exactly one of the four
sources with mutually exclusive precedence in this order: an explicit
velocity sequence; then (dv, count) centered at 0; then (vLim, count); then
auto-derived limits from -(5*sigmaTot + |v0|) to 5*sigmaTot + |v0| with
count points. -/
theorem c7_grid_precedence :
    (∀ hD hL : Bool, gridSource true hD hL = GridSrc.explicitSeq) ∧
    (∀ hL : Bool, gridSource false true hL = GridSrc.fromDv) ∧
    gridSource false false true = GridSrc.fromVLim ∧
    gridSource false false false = GridSrc.auto ∧
    (∀ s v : ℝ, autoVLim s v = (-(5 * s + |v|), 5 * s + |v|)) := by
  refine ⟨by decide, by decide, by decide, by decide, fun s v => ?_⟩
  simp only [autoVLim, Prod.mk.injEq]
  exact ⟨by ring, trivial⟩

/-- C8 counterexample: with a caller-supplied budget of 500 and an interior
resonance at x* = 1/2, the segments do not all carry the caller's budget —
the interior branch hard-codes 10000. -/
theorem c8_step_budget_counterexample :
    (pencilSegments (1/2 : ℝ) 0 500).map Seg.mx ≠
      List.replicate ((pencilSegments (1/2 : ℝ) 0 500).length) 500 := by
  have h1 : ((1:ℝ)/2) < 1 := by norm_num
  simp only [pencilSegments, if_pos h1]
  decide

/-- C8 (amended): the ODE step budget is configurable via the mxstep
parameter with default 10000; the exterior-resonance segment uses the
caller-supplied budget, while every interior-resonance segment uses a
hard-coded budget of 10000 regardless of the caller's value. -/
theorem c8_step_budget (rl offset : ℝ) (m : ℕ) :
    defaultMxstep = 10000 ∧
    (pencilSegments rl offset m).map Seg.mx =
      (if rl < 1 then List.replicate 9 10000 else [m]) := by
  refine ⟨rfl, ?_⟩
  unfold pencilSegments
  split <;> rfl

/-- C9: with a radiative transition present and no beam, the offset check
raises exactly when offset lies outside [0,1]: -1/10 and 3/2 are rejected
while the boundary values 0 and 1 are accepted. -/
theorem c9_offset_validation :
    (∀ o : ℚ, lpValidate 1 o 0 = some LPErr.offsetError ↔ o < 0 ∨ 1 < o) ∧
    lpValidate 1 (-1/10) 0 = some LPErr.offsetError ∧
    lpValidate 1 (3/2) 0 = some LPErr.offsetError ∧
    lpValidate 1 0 0 = none ∧
    lpValidate 1 1 0 = none := by
  refine ⟨fun o => ?_, by norm_num [lpValidate], by norm_num [lpValidate], by decide, by decide⟩
  simp only [lpValidate]
  split_ifs with h1 h2 h3 <;> simp_all

/-- C10: the resonance search starts at x = 0.001 with tolerance 1e-5,
walks in direction -1 for v < 0 and +1 otherwise (so v = 0 searches the +x
side), and its objective is the negated transfer-equation RHS evaluated at
the fixed CMB seed intensity, not at the evolving intensity along the
sightline. -/
theorem c10_resonance_search :
    (∀ (te : TransferEqn) (TCMB v x : ℝ),
      resonanceObjective te TCMB v x =
        -(te.rhs (ICMBcode te.freq te.I0 TCMB (1 + v / c)) (velocitySign v * x) (1 + v / c))) ∧
    (∀ v : ℝ, velocitySign v = if v < 0 then -1 else 1) ∧
    velocitySign 0 = 1 ∧
    resonanceStart = 1 / 1000 ∧
    resonanceXtol = 1 / 100000 := by
  refine ⟨fun te TCMB v x => rfl, fun v => rfl, ?_, ?_, ?_⟩
  · norm_num [velocitySign]
  · norm_num [resonanceStart]
  · norm_num [resonanceXtol]

end LineProfLTE
